import Mathlib

/-!
Shallow embedding of `py/kubeflow/tf_operator/tf_job_client.py` (tf-operator
test-harness client utilities) and verification of its specification.

Modelling conventions:
* A TFJob custom resource is modelled only through the parts the functions
  below inspect: the `status.conditions` field.  A Python dict field can be
  absent, hold `None`, or hold a list, and the source distinguishes all three
  (`.get` defaults vs. `conditions or []` vs. direct indexing), so the shape
  is modelled explicitly by `CondsField`.
* The polling loops interact with the cluster through fetches and with the
  clock through `datetime.datetime.now()`.  Each loop iteration is given the
  outcome of its fetch and the value of `now()` at the deadline pre-check as
  an environment trace (`List PollIter` / `List DeleteIter`); the loop body is
  translated line by line from the source.  Times are integers (seconds).
* Python exceptions surface as explicit outcome constructors
  (`PollOutcome.fetchFailure` for a re-raised fetch exception,
  `PollOutcome.jobTimeout r` for `util.JobTimeoutError(msg, results)` whose
  payload `r` is the local variable `results` at raise time, and
  `DeleteOutcome.timeoutFailure` for `util.TimeoutError(msg)`, which carries
  no status payload in the source).
* `job_succeeded` can raise (`[][-1]` is an `IndexError`, `None[-1]` a
  `TypeError`), so it is embedded as `Except PyError Bool`.
-/

/-- One entry of `status.conditions`: the `"type"` key may be absent
(`c.get("type", "")` then yields `""`), and a condition carries arbitrary
auxiliary fields, abstracted as `aux`. -/
structure JobCondition where
  type? : Option String
  aux : String
deriving DecidableEq

/-- `c.get("type", "")` from the source. -/
def condTypeOf (c : JobCondition) : String :=
  c.type?.getD ""

/-- The shape of the `conditions` entry inside a `status` dict: the key can be
absent, present with value `None`, or present with a list value. -/
inductive CondsField
  | absent
  | null
  | list (cs : List JobCondition)
deriving DecidableEq

/-- A TFJob resource as inspected by this module: `status? = none` models a
resource whose `"status"` key is absent (`tfjob.get("status", {})` then
yields `{}`); `status? = some f` models a status dict whose `conditions`
field has shape `f`. -/
structure TFJob where
  status? : Option CondsField
deriving DecidableEq

/-- The condition list `wait_for_condition` scans:
`results.get("status", {}).get("conditions", [])` followed by
`conditions = conditions or []` (absent status, absent key, `None` and `[]`
all give `[]`). -/
def effectiveConditions (j : TFJob) : List JobCondition :=
  match j.status? with
  | none => []
  | some CondsField.absent => []
  | some CondsField.null => []
  | some (CondsField.list cs) => cs

/-- The scan `for c in conditions: if c.get("type", "") in expected_condition`
from `wait_for_condition`: the first condition (in sequence order) whose type
is in the expected set. -/
def matchingCondition (expected : List String) (j : TFJob) : Option JobCondition :=
  (effectiveConditions j).find? (fun c => expected.contains (condTypeOf c))

/-- Outcome of one `crd_api.get_namespaced_custom_object(..., async_req=True)`
fetch followed by `thread.get(TIMEOUT)`: a `multiprocessing.TimeoutError`
(logged, `results` stays `None`), any other exception (re-raised), or a
successfully fetched resource. -/
inductive FetchOutcome
  | fetchTimeout
  | fetchError
  | fetched (j : TFJob)
deriving DecidableEq

/-- Environment of one iteration of `wait_for_condition`'s `while True` loop:
the fetch outcome and the value of `datetime.datetime.now()` at the deadline
pre-check `now() + polling_interval > end_time`. -/
structure PollIter where
  fetch : FetchOutcome
  checkTime : Int
deriving DecidableEq

/-- How `wait_for_condition` terminates: returning a matching status,
re-raising a non-timeout fetch exception, raising
`util.JobTimeoutError(msg, results)` (payload = the local `results` of the
raising iteration), or exhausting the supplied environment trace (the loop
would keep polling). -/
inductive PollOutcome
  | success (j : TFJob)
  | fetchFailure
  | jobTimeout (lastResults : Option TFJob)
  | ranOut
deriving DecidableEq

/-- The value of the local variable `results` after the fetch of one
iteration (`results = None`, then `results = thread.get(TIMEOUT)` unless the
fetch timed out). -/
def fetchResults : FetchOutcome → Option TFJob
  | FetchOutcome.fetchTimeout => none
  | FetchOutcome.fetchError => none
  | FetchOutcome.fetched j => some j

/-- `wait_for_condition(client, namespace, name, expected_condition, ...)`,
lines 116-178 of `tf_job_client.py`, driven by an environment trace.
Each iteration: fetch (timeout → `results = None`, other error → raise);
if `results` is truthy, scan its conditions and return `results` on the first
match; otherwise if `now() + polling_interval > end_time`, raise
`JobTimeoutError(..., results)`; otherwise sleep and loop. -/
def wait_for_condition (expected : List String) (endTime interval : Int) :
    List PollIter → PollOutcome
  | [] => PollOutcome.ranOut
  | it :: rest =>
    match it.fetch with
    | FetchOutcome.fetchError => PollOutcome.fetchFailure
    | FetchOutcome.fetchTimeout =>
      if it.checkTime + interval > endTime then
        PollOutcome.jobTimeout none
      else
        wait_for_condition expected endTime interval rest
    | FetchOutcome.fetched j =>
      match matchingCondition expected j with
      | some _ => PollOutcome.success j
      | none =>
        if it.checkTime + interval > endTime then
          PollOutcome.jobTimeout (some j)
        else
          wait_for_condition expected endTime interval rest

/-- Outcome of one `crd_api.get_namespaced_custom_object(...)` call inside
`wait_for_delete`: the resource, a `rest.ApiException` with status 404
(not-found), or any other `rest.ApiException`. -/
inductive DeleteFetch
  | found (j : TFJob)
  | notFound
  | apiError
deriving DecidableEq

/-- Environment of one iteration of `wait_for_delete`'s loop. -/
structure DeleteIter where
  fetch : DeleteFetch
  checkTime : Int
deriving DecidableEq

/-- How `wait_for_delete` terminates: a normal `return` on not-found, a
re-raised `rest.ApiException`, a raised `util.TimeoutError(msg)` — note the
source passes only a message, no status payload — or trace exhaustion. -/
inductive DeleteOutcome
  | success
  | fatalError
  | timeoutFailure
  | ranOut
deriving DecidableEq

/-- `wait_for_delete(client, namespace, name, ...)`, lines 210-248 of
`tf_job_client.py`, driven by an environment trace: not-found returns,
any other `ApiException` re-raises, otherwise the deadline pre-check either
raises a plain `util.TimeoutError` or the loop sleeps and repeats. -/
def wait_for_delete (endTime interval : Int) : List DeleteIter → DeleteOutcome
  | [] => DeleteOutcome.ranOut
  | it :: rest =>
    match it.fetch with
    | DeleteFetch.notFound => DeleteOutcome.success
    | DeleteFetch.apiError => DeleteOutcome.fatalError
    | DeleteFetch.found _ =>
      if it.checkTime + interval > endTime then
        DeleteOutcome.timeoutFailure
      else
        wait_for_delete endTime interval rest

/-- `get_labels(name, replica_type=None, replica_index=None)`, lines 251-263.
A Python dict preserves insertion order, so the label set is a key/value list
in insertion order.  `if replica_type:` and `if replica_index:` are Python
truthiness tests: `None` and `""` (resp. `None` and `0`) are falsy.  The
replica index is stored as the raw integer in the source; it is rendered to a
string here so label values have one type (`to_selector` formats values with
`str` anyway). -/
def get_labels (name : String) (replica_type : Option String)
    (replica_index : Option Int) : List (String × String) :=
  let labels := [("group-name", "kubeflow.org"), ("job-name", name)]
  let labels :=
    match replica_type with
    | some t => if t = "" then labels else labels ++ [("replica-type", t.toLower)]
    | none => labels
  match replica_index with
  | some i => if i = 0 then labels else labels ++ [("replica-index", toString i)]
  | none => labels

/-- `to_selector(labels)`, lines 266-271: build `"{0}={1}".format(k, v)` per
entry in mapping-iteration order, then `",".join(parts)`. -/
def to_selector (labels : List (String × String)) : String :=
  let parts := labels.foldl (fun acc kv => acc ++ [kv.1 ++ "=" ++ kv.2]) []
  String.intercalate "," parts

/-- The Python exceptions `job_succeeded` can raise. -/
inductive PyError
  | indexError
  | typeError
deriving DecidableEq

/-- `job_succeeded(tfjob)`, lines 353-360:
`tfjob.get("status", {}).get("conditions", [{}])[-1]` — with the key absent
the default `[{}]` makes the last condition the empty dict; with value `None`
`None[-1]` raises `TypeError`; with `[]` the `[-1]` raises `IndexError`;
otherwise the last entry.  Then `last_condition.get("type", "").lower() ==
"succeeded"`. -/
def job_succeeded (j : TFJob) : Except PyError Bool :=
  let conds := match j.status? with
    | none => CondsField.absent
    | some f => f
  match conds with
  | CondsField.null => Except.error PyError.typeError
  | CondsField.absent =>
    Except.ok ((condTypeOf ⟨none, ""⟩).toLower == "succeeded")
  | CondsField.list cs =>
    match cs.getLast? with
    | none => Except.error PyError.indexError
    | some last => Except.ok ((condTypeOf last).toLower == "succeeded")

/-- The value of one entry of `spec.tfReplicaSpecs`: `None`, the empty dict
`{}` (falsy, so skipped by `if replica_spec:`), a non-empty dict carrying
`"replicas": n`, or a non-empty dict without a `"replicas"` key
(`replica_spec.get("replicas", 1)` then yields 1). -/
inductive ReplicaSpecVal
  | null
  | emptyObj
  | objWithReplicas (n : Nat)
  | objNoReplicas
deriving DecidableEq

/-- The `num_expected` accumulation of `get_creation_failures_from_tfjob`,
lines 380-385: entries whose value is falsy (`None` or `{}`) are skipped;
otherwise `replica_spec.get("replicas", 1)` is added. -/
def num_expected_of (specs : List (String × ReplicaSpecVal)) : Nat :=
  specs.foldl
    (fun acc kv =>
      match kv.2 with
      | ReplicaSpecVal.null => acc
      | ReplicaSpecVal.emptyObj => acc
      | ReplicaSpecVal.objWithReplicas n => acc + n
      | ReplicaSpecVal.objNoReplicas => acc + 1)
    0

/-- The pod-category discrepancy message, lines 389-390. -/
def podCreationMessage (numExpected numCreated : Nat) : String :=
  "Expected " ++ toString numExpected ++ " pods to be created but only got "
    ++ toString numCreated ++ " create events."

/-- The service-category discrepancy message, lines 394-396. -/
def serviceCreationMessage (numExpected numCreated : Nat) : String :=
  "Expected " ++ toString numExpected ++ " services to be created but only got "
    ++ toString numCreated ++ " create events."

/-- `get_creation_failures_from_tfjob(api_client, namespace, tfjob)`,
lines 363-399.  The created pods and services (from
`k8s_util.parse_events(events)`, an external collaborator) are inputs; the
replica-spec mapping of the tfjob's spec is a key/value list.  Appends one
message per category whose observed count differs from `num_expected`. -/
def get_creation_failures_from_tfjob (specs : List (String × ReplicaSpecVal))
    (created_pods created_services : List String) : List String :=
  let num_expected := num_expected_of specs
  let creation_failures : List String := []
  let creation_failures :=
    if created_pods.length ≠ num_expected then
      creation_failures ++ [podCreationMessage num_expected created_pods.length]
    else creation_failures
  let creation_failures :=
    if created_services.length ≠ num_expected then
      creation_failures ++ [serviceCreationMessage num_expected created_services.length]
    else creation_failures
  creation_failures

/-- The claim's reading of the expected replica total (spec §4.6): "summing,
over every declared replica-type entry in the spec, its declared count
(default 1 if unspecified but the entry is present)" — every present entry
contributes, with default 1 when it declares no count.  Kept separate from
`num_expected_of` (translated from the source) so the two can be compared. -/
def claimedExpectedTotal (specs : List (String × ReplicaSpecVal)) : Nat :=
  specs.foldl
    (fun acc kv =>
      match kv.2 with
      | ReplicaSpecVal.objWithReplicas n => acc + n
      | _ => acc + 1)
    0

/-- The observable interactions of `terminate_and_verify_start_time`,
lines 420-470: which replica type each `wait_for_replica_type_in_phases`
call addresses and with which phases, which replica type each
`get_start_time_by_index` call reads, which replica type
`terminate_replicas` terminates and how many instances, and the returned
boolean. -/
structure VerifyTrace where
  initialWaitType : String
  initialWaitPhases : List String
  startTimeType1 : String
  startTimePhase1 : String
  terminateType : String
  terminateCount : Nat
  branchWaitType : String
  branchWaitPhases : List String
  startTimeType2 : String
  startTimePhase2 : String
  result : Bool
deriving DecidableEq

/-- `terminate_and_verify_start_time(api_client, namespace, name,
replica_type, replica_index, exit_code, expect_restart)`, lines 420-470.
The two observed start times (`get_start_time_by_index` results, external
lookups) are inputs `first_start_time` and `restart_time`.  Note the source
passes the literal `"ps"` — not `replica_type` — to every
`wait_for_replica_type_in_phases` call and to `terminate_replicas`, while
the start-time lookups use `replica_type`. -/
def terminate_and_verify_start_time (replica_type : String)
    (first_start_time restart_time : Int) (exit_code : Int)
    (expect_restart : Bool) : VerifyTrace :=
  if expect_restart then
    { initialWaitType := "ps", initialWaitPhases := ["Running"]
      startTimeType1 := replica_type, startTimePhase1 := "Running"
      terminateType := "ps", terminateCount := 1
      branchWaitType := "ps", branchWaitPhases := ["Running"]
      startTimeType2 := replica_type, startTimePhase2 := "Running"
      result := if restart_time ≤ first_start_time then false else true }
  else if exit_code = 0 then
    { initialWaitType := "ps", initialWaitPhases := ["Running"]
      startTimeType1 := replica_type, startTimePhase1 := "Running"
      terminateType := "ps", terminateCount := 1
      branchWaitType := "ps", branchWaitPhases := ["Succeeded"]
      startTimeType2 := replica_type, startTimePhase2 := "Succeeded"
      result := if restart_time ≠ first_start_time then false else true }
  else
    { initialWaitType := "ps", initialWaitPhases := ["Running"]
      startTimeType1 := replica_type, startTimePhase1 := "Running"
      terminateType := "ps", terminateCount := 1
      branchWaitType := "ps", branchWaitPhases := ["Failed"]
      startTimeType2 := replica_type, startTimePhase2 := "Failed"
      result := if restart_time ≠ first_start_time then false else true }

/-- C1: the claim says the phase waits of steps 1 and 3 and the fault
injection of `terminate_and_verify_start_time` are addressed to the given
`replica_type` for all replica types.  Evaluating the embedding at
`replica_type = "worker"` shows the source instead hardcodes `"ps"` as the
replica type waited on and terminated (lines 435, 439, 442, 452, 461),
while the start-time lookups use the given `replica_type`. -/
theorem C1_ps_hardcoded_eval :
  (terminate_and_verify_start_time "worker" 0 5 1 true).initialWaitType = "ps" ∧
  (terminate_and_verify_start_time "worker" 0 5 1 true).terminateType = "ps" ∧
  (terminate_and_verify_start_time "worker" 0 5 1 true).branchWaitType = "ps" ∧
  (terminate_and_verify_start_time "worker" 0 5 1 true).startTimeType1 = "worker" ∧
  "ps" ≠ "worker" := by decide

/-- C2: with `expect_restart = true`, `terminate_and_verify_start_time`
returns `true` iff the post-termination Running start time `t1` is strictly
later than the pre-termination Running start time `t0`; in particular
`t1 = t0` yields `false`. -/
theorem C2_expect_restart_strict (replica_type : String) (t0 t1 exit_code : Int) :
    ((terminate_and_verify_start_time replica_type t0 t1 exit_code true).result = true
      ↔ t0 < t1) ∧
    (terminate_and_verify_start_time replica_type t0 t0 exit_code true).result = false := by
  constructor
  · by_cases h : t1 ≤ t0
    all_goals simp [terminate_and_verify_start_time, h]
    all_goals omega
  · simp [terminate_and_verify_start_time]

/-- C3 counterexample: the claim's expected total counts 1 for any present
replica-type entry without a declared count, so for the spec
`{"worker": {}}` with zero observed create events it requires one pod and one
service discrepancy message; the source skips falsy (empty-dict) entries,
computes an expected total of 0, and returns no messages. -/
theorem C3_counterexample :
  claimedExpectedTotal [("worker", ReplicaSpecVal.emptyObj)] = 1 ∧
  List.length ([] : List String) ≠ claimedExpectedTotal [("worker", ReplicaSpecVal.emptyObj)] ∧
  get_creation_failures_from_tfjob [("worker", ReplicaSpecVal.emptyObj)] [] [] = [] := by
  decide

/-- C3 amended: the expected total sums declared counts over entries with a
non-empty spec value, taking 1 for a non-empty entry with no declared count
(entries whose value is empty or null contribute 0, `num_expected_of`); the
result appends exactly one pod message iff the pod count differs from the
expected total, exactly one service message iff the service count differs,
and is empty iff both counts match. -/
theorem C3_amended_messages (specs : List (String × ReplicaSpecVal))
    (created_pods created_services : List String) :
    get_creation_failures_from_tfjob specs created_pods created_services =
      (if created_pods.length ≠ num_expected_of specs then
         [podCreationMessage (num_expected_of specs) created_pods.length] else [])
      ++ (if created_services.length ≠ num_expected_of specs then
         [serviceCreationMessage (num_expected_of specs) created_services.length] else [])
    ∧ (get_creation_failures_from_tfjob specs created_pods created_services = [] ↔
        (created_pods.length = num_expected_of specs ∧
         created_services.length = num_expected_of specs)) := by
  constructor
  · by_cases h1 : created_pods.length = num_expected_of specs <;>
      by_cases h2 : created_services.length = num_expected_of specs <;>
      simp [get_creation_failures_from_tfjob, h1, h2]
  · by_cases h1 : created_pods.length = num_expected_of specs <;>
      by_cases h2 : created_services.length = num_expected_of specs <;>
      simp [get_creation_failures_from_tfjob, h1, h2]

/-- C8: on a status whose condition list is non-empty (written
`pre ++ [c]`), `job_succeeded` inspects only the last entry `c` and returns
`true` iff its type lower-cases to `"succeeded"`, regardless of `pre`. -/
theorem C8_last_condition_only (pre : List JobCondition) (c : JobCondition) :
    job_succeeded ⟨some (CondsField.list (pre ++ [c]))⟩ =
      Except.ok ((condTypeOf c).toLower == "succeeded") := by
  simp [job_succeeded, List.getLast?_concat]

/-- C10: `job_succeeded` is partial at the public interface: a status whose
conditions field is the empty list raises `IndexError` and one whose
conditions field is null raises `TypeError`, while `wait_for_condition`'s
scan source `effectiveConditions` treats both as the empty sequence, and
`wait_for_condition` on such a fetched status proceeds without raising a
fetch error (here it times out carrying that status). -/
theorem C10_job_succeeded_partial :
  job_succeeded ⟨some (CondsField.list [])⟩ = Except.error PyError.indexError ∧
  job_succeeded ⟨some CondsField.null⟩ = Except.error PyError.typeError ∧
  effectiveConditions ⟨some (CondsField.list [])⟩ = [] ∧
  effectiveConditions ⟨some CondsField.null⟩ = [] ∧
  wait_for_condition ["Succeeded"] 100 30
      [⟨FetchOutcome.fetched ⟨some CondsField.null⟩, 80⟩]
    = PollOutcome.jobTimeout (some ⟨some CondsField.null⟩) :=
  ⟨rfl, rfl, rfl, rfl, rfl⟩

/-- C7 counterexample: the claim says the replica-type label is present
exactly when a replica type is provided; providing the empty string (a
provided but falsy value — `if replica_type:` in the source) yields a label
set without the replica-type label. -/
theorem C7_counterexample :
  (some "" : Option String) ≠ none ∧
  (get_labels "myjob" (some "") none).lookup "replica-type" = none := by decide

/-- C7 amended: `get_labels` always sets the job-group label
(`"group-name" = "kubeflow.org"`) and the job-name label; the replica-type
label, lower-cased, is present exactly when a replica type is provided and
non-empty (non-falsy); the replica-index label is present exactly when a
replica index is provided and non-zero (non-falsy). -/
theorem C7_amended_lookup (name : String) (t : Option String) (i : Option Int) :
    ((get_labels name t i).lookup "group-name" = some "kubeflow.org") ∧
    ((get_labels name t i).lookup "job-name" = some name) ∧
    ((get_labels name t i).lookup "replica-type" =
      match t with
      | none => none
      | some s => if s = "" then none else some s.toLower) ∧
    ((get_labels name t i).lookup "replica-index" =
      match i with
      | none => none
      | some k => if k = 0 then none else some (toString k)) := by
  cases t with
  | none =>
    cases i with
    | none => simp [get_labels, List.lookup]
    | some k =>
      by_cases hk : k = 0 <;> simp [get_labels, List.lookup, hk]
  | some s =>
    cases i with
    | none =>
      by_cases hs : s = "" <;> simp [get_labels, List.lookup, hs]
    | some k =>
      by_cases hs : s = "" <;> by_cases hk : k = 0 <;>
        simp [get_labels, List.lookup, hs, hk]

/-- Parts accumulated by `to_selector`'s loop equal the mapped key-value
renderings appended to the accumulator. -/
theorem selector_parts_eq (l : List (String × String)) (acc : List String) :
    l.foldl (fun a kv => a ++ [kv.1 ++ "=" ++ kv.2]) acc
      = acc ++ l.map (fun kv => kv.1 ++ "=" ++ kv.2) := by
  induction l generalizing acc with
  | nil => simp
  | cons x xs ih => simp [ih]

/-- C9: `get_labels` and `to_selector` are pure and deterministic — equal
inputs give equal label sets and equal selector strings — and the rendered
selector is the `key=value` pairs of the label set joined by commas in
mapping-iteration order. -/
theorem C9_deterministic_rendering :
  (∀ (name : String) (t : Option String) (i : Option Int),
     get_labels name t i = get_labels name t i ∧
     to_selector (get_labels name t i) = to_selector (get_labels name t i)) ∧
  (∀ labels : List (String × String),
     to_selector labels =
       String.intercalate "," (labels.map (fun kv => kv.1 ++ "=" ++ kv.2))) := by
  refine ⟨fun name t i => ⟨rfl, rfl⟩, fun labels => ?_⟩
  unfold to_selector
  rw [selector_parts_eq]
  simp

/-- C5: when a fetch returns a status having some condition whose type is in
the expected set, `wait_for_condition` returns that status in the same
iteration, for any remaining trace and deadline (no further sleep); the scan
is in sequence order with the first matching entry winning; and an absent,
null or empty condition sequence is treated as the empty sequence, never as
an error. -/
theorem C5_immediate_return :
  (∀ (expected : List String) (endTime interval t : Int) (j : TFJob)
     (rest : List PollIter),
     (∃ c ∈ effectiveConditions j, condTypeOf c ∈ expected) →
     wait_for_condition expected endTime interval
       (⟨FetchOutcome.fetched j, t⟩ :: rest) = PollOutcome.success j) ∧
  (∀ (expected : List String) (pre post : List JobCondition) (c : JobCondition),
     (∀ c' ∈ pre, condTypeOf c' ∉ expected) → condTypeOf c ∈ expected →
     matchingCondition expected ⟨some (CondsField.list (pre ++ c :: post))⟩ = some c) ∧
  effectiveConditions ⟨none⟩ = [] ∧
  effectiveConditions ⟨some CondsField.absent⟩ = [] ∧
  effectiveConditions ⟨some CondsField.null⟩ = [] ∧
  effectiveConditions ⟨some (CondsField.list [])⟩ = [] := by
  refine ⟨?_, ?_, rfl, rfl, rfl, rfl⟩
  · intro expected endTime interval t j rest h
    obtain ⟨c, hmem, hc⟩ := h
    have hsome : (matchingCondition expected j).isSome := by
      unfold matchingCondition
      rw [List.find?_isSome]
      exact ⟨c, hmem, by simpa [List.contains, List.elem_iff] using hc⟩
    cases hm : matchingCondition expected j with
    | none => rw [hm] at hsome; simp at hsome
    | some c' => simp [wait_for_condition, hm]
  · intro expected pre post c hpre hc
    unfold matchingCondition effectiveConditions
    simp only
    induction pre with
    | nil =>
      simp only [List.nil_append]
      rw [List.find?_cons_of_pos]
      simpa [List.contains, List.elem_iff] using hc
    | cons x xs ih =>
      simp only [List.cons_append]
      rw [List.find?_cons_of_neg]
      · exact ih (fun c' h => hpre c' (List.mem_cons_of_mem _ h))
      · simpa [List.contains, List.elem_iff] using hpre x (List.mem_cons_self _ _)

/-- A status carrying a Running condition, used to instantiate
`C5_immediate_return`. -/
def runningJob : TFJob :=
  ⟨some (CondsField.list [⟨some "Running", ""⟩])⟩

/-- Witness for C5: instantiating both guarded parts of
`C5_immediate_return` at concrete inputs. -/
theorem C5_witness :
  wait_for_condition ["Running", "Succeeded"] 100 30
      [⟨FetchOutcome.fetched runningJob, 0⟩] = PollOutcome.success runningJob ∧
  matchingCondition ["Running"]
      ⟨some (CondsField.list ([⟨some "Created", "x"⟩] ++ ⟨some "Running", "y"⟩ :: []))⟩
    = some ⟨some "Running", "y"⟩ :=
  ⟨C5_immediate_return.1 ["Running", "Succeeded"] 100 30 0 runningJob []
      ⟨⟨some "Running", ""⟩, by decide, by decide⟩,
   C5_immediate_return.2.1 ["Running"] [⟨some "Created", "x"⟩] [] ⟨some "Running", "y"⟩
      (by decide) (by decide)⟩

/-- A fetched status whose only condition type (`"Created"`) never matches
the expected set `["Succeeded"]`. -/
def staleJob : TFJob :=
  ⟨some (CondsField.list [⟨some "Created", ""⟩])⟩

/-- C4 counterexample: the first iteration fetches `staleJob` successfully
(no match, deadline not yet reached); the second iteration's fetch times out
and trips the deadline pre-check.  The raised `JobTimeoutError` carries
`none` — the current iteration's `results`, reset at the top of every loop
iteration — even though a fetch succeeded earlier, contradicting the claim
that the payload is the most recent successful fetch and is empty only when
no fetch ever succeeded. -/
theorem C4_counterexample :
  wait_for_condition ["Succeeded"] 100 30
      [⟨FetchOutcome.fetched staleJob, 0⟩, ⟨FetchOutcome.fetchTimeout, 80⟩]
    = PollOutcome.jobTimeout none ∧
  (some staleJob : Option TFJob) ≠ none := by decide

/-- C4 amended: whenever `wait_for_condition` raises `JobTimeoutError`, its
status payload is exactly the raising iteration's own fetch result — the
fetched status if that final fetch succeeded, empty if it timed out — with
earlier iterations' successful fetches playing no part. -/
theorem C4_amended_payload (expected : List String) (endTime interval : Int)
    (trace : List PollIter) (r : Option TFJob)
    (h : wait_for_condition expected endTime interval trace = PollOutcome.jobTimeout r) :
    ∃ pre it rest, trace = pre ++ it :: rest ∧
      it.checkTime + interval > endTime ∧ r = fetchResults it.fetch := by
  induction trace with
  | nil => simp [wait_for_condition] at h
  | cons it rest ih =>
    rw [wait_for_condition] at h
    cases hf : it.fetch with
    | fetchError => simp [hf] at h
    | fetchTimeout =>
      simp only [hf] at h
      split at h
      · refine ⟨[], it, rest, by simp, by assumption, ?_⟩
        cases h
        simp [fetchResults, hf]
      · obtain ⟨pre', it', rest', heq, hd, hr⟩ := ih h
        exact ⟨it :: pre', it', rest', by simp [heq], hd, hr⟩
    | fetched j =>
      simp only [hf] at h
      cases hm : matchingCondition expected j with
      | some c => simp [hm] at h
      | none =>
        simp only [hm] at h
        split at h
        · refine ⟨[], it, rest, by simp, by assumption, ?_⟩
          cases h
          simp [fetchResults, hf]
        · obtain ⟨pre', it', rest', heq, hd, hr⟩ := ih h
          exact ⟨it :: pre', it', rest', by simp [heq], hd, hr⟩

/-- Witness for C4's amended theorem: the trace of `C4_counterexample`
decomposes with the raising iteration being the final fetch-timeout
iteration, whose fetch result is empty. -/
theorem C4_amended_witness :
  ∃ pre it rest,
    ([⟨FetchOutcome.fetched staleJob, 0⟩, ⟨FetchOutcome.fetchTimeout, 80⟩] : List PollIter)
      = pre ++ it :: rest ∧
    it.checkTime + 30 > 100 ∧ (none : Option TFJob) = fetchResults it.fetch :=
  C4_amended_payload ["Succeeded"] 100 30
    [⟨FetchOutcome.fetched staleJob, 0⟩, ⟨FetchOutcome.fetchTimeout, 80⟩] none (by decide)

/-- Iterations that fetch the still-existing resource without tripping the
deadline pre-check are skipped by `wait_for_delete`. -/
theorem wait_for_delete_skips_found (endTime interval : Int)
    (pre l : List DeleteIter)
    (hpre : ∀ it ∈ pre, (∃ j, it.fetch = DeleteFetch.found j) ∧
      ¬(it.checkTime + interval > endTime)) :
    wait_for_delete endTime interval (pre ++ l) = wait_for_delete endTime interval l := by
  induction pre with
  | nil => rfl
  | cons x xs ih =>
    obtain ⟨⟨j, hj⟩, ht⟩ := hpre x (List.mem_cons_self _ _)
    rw [List.cons_append, wait_for_delete, hj, if_neg ht]
    exact ih (fun it h => hpre it (List.mem_cons_of_mem _ h))

/-- C6: after any run of iterations that found the resource without
reaching the deadline, (a) a not-found response makes `wait_for_delete`
return normally (success), even though earlier fetches returned the
resource; (b) any other API error propagates immediately as fatal; and
(c) if the deadline pre-check trips first, a plain timeout error is raised —
`DeleteOutcome.timeoutFailure` carries no status payload, matching
`util.TimeoutError(msg)` in the source. -/
theorem C6_delete_semantics :
  (∀ (endTime interval : Int) (pre : List DeleteIter) (t : Int)
     (rest : List DeleteIter),
     (∀ it ∈ pre, (∃ j, it.fetch = DeleteFetch.found j) ∧
       ¬(it.checkTime + interval > endTime)) →
     wait_for_delete endTime interval (pre ++ ⟨DeleteFetch.notFound, t⟩ :: rest)
       = DeleteOutcome.success) ∧
  (∀ (endTime interval : Int) (pre : List DeleteIter) (t : Int)
     (rest : List DeleteIter),
     (∀ it ∈ pre, (∃ j, it.fetch = DeleteFetch.found j) ∧
       ¬(it.checkTime + interval > endTime)) →
     wait_for_delete endTime interval (pre ++ ⟨DeleteFetch.apiError, t⟩ :: rest)
       = DeleteOutcome.fatalError) ∧
  (∀ (endTime interval : Int) (pre : List DeleteIter) (j : TFJob) (t : Int)
     (rest : List DeleteIter),
     (∀ it ∈ pre, (∃ j, it.fetch = DeleteFetch.found j) ∧
       ¬(it.checkTime + interval > endTime)) →
     t + interval > endTime →
     wait_for_delete endTime interval (pre ++ ⟨DeleteFetch.found j, t⟩ :: rest)
       = DeleteOutcome.timeoutFailure) := by
  refine ⟨?_, ?_, ?_⟩
  · intro endTime interval pre t rest hpre
    rw [wait_for_delete_skips_found endTime interval pre _ hpre, wait_for_delete]
  · intro endTime interval pre t rest hpre
    rw [wait_for_delete_skips_found endTime interval pre _ hpre, wait_for_delete]
  · intro endTime interval pre j t rest hpre ht
    rw [wait_for_delete_skips_found endTime interval pre _ hpre, wait_for_delete,
      if_pos ht]

/-- Witness for C6: all three parts of `C6_delete_semantics` at concrete
traces whose first iteration finds the resource. -/
theorem C6_witness :
  wait_for_delete 100 30
      ([⟨DeleteFetch.found ⟨none⟩, 0⟩] ++ ⟨DeleteFetch.notFound, 50⟩ :: [])
    = DeleteOutcome.success ∧
  wait_for_delete 100 30
      ([⟨DeleteFetch.found ⟨none⟩, 0⟩] ++ ⟨DeleteFetch.apiError, 50⟩ :: [])
    = DeleteOutcome.fatalError ∧
  wait_for_delete 100 30
      ([⟨DeleteFetch.found ⟨none⟩, 0⟩] ++ ⟨DeleteFetch.found ⟨none⟩, 90⟩ :: [])
    = DeleteOutcome.timeoutFailure := by
  have hpre : ∀ it ∈ ([⟨DeleteFetch.found ⟨none⟩, 0⟩] : List DeleteIter),
      (∃ j, it.fetch = DeleteFetch.found j) ∧ ¬(it.checkTime + 30 > 100) := by
    intro it h
    simp only [List.mem_singleton] at h
    subst h
    exact ⟨⟨⟨none⟩, rfl⟩, by decide⟩
  exact ⟨C6_delete_semantics.1 100 30 _ 50 [] hpre,
    C6_delete_semantics.2.1 100 30 _ 50 [] hpre,
    C6_delete_semantics.2.2 100 30 _ ⟨none⟩ 90 [] hpre (by decide)⟩
